import Mathlib

/-!
Verification of `src/api/views.py` (CV formatting backend).

The Python module is embedded shallowly:

* external libraries (base64 decoding, the DOCX/PDF parsers, the legacy-DOC
  converter, UTF-8 decoding, `json.loads`) are modelled as explicit oracle
  functions collected in an environment record, since their behaviour is
  outside this repository;
* Python exceptions become `Except`; the `try/except` handlers become matches
  on the `Except` value;
* the Django request/response objects become plain inductive types recording
  HTTP status and JSON body;
* the retry loop of `process_cv_view` becomes a structural recursion over the
  remaining iterations of `range(MAX_RETRIES)`, recording the backoff sleeps
  it performs and the number of calls it makes to the external model.
-/

/-- Raw file bytes (the result of `base64.b64decode`). -/
abbrev Bytes := List Nat

/-- A JSON value, as produced by `json.loads`. -/
inductive JValue where
  | str (s : String)
  | num (n : Int)
  | bool (b : Bool)
  | null
  | arr (elems : List JValue)
  | obj (fields : List (String × JValue))

/-- Python truthiness (`if not x`) for JSON-decoded values. -/
def pyTruthy : JValue → Bool
  | .str s => s != ""
  | .num n => n != 0
  | .bool b => b
  | .null => false
  | .arr xs => !xs.isEmpty
  | .obj fs => !fs.isEmpty

/-- A DOCX paragraph as seen through the `python-docx` API:
its text and its style name. -/
structure DocxPara where
  text : String
  styleName : String
deriving DecidableEq, Repr

/-- A DOCX document: paragraphs in document order and tables,
each table a list of rows, each row a list of cell texts. -/
structure DocxDoc where
  paragraphs : List DocxPara
  tables : List (List (List String))
deriving DecidableEq, Repr

/-- A PDF page as seen through `pdfplumber`: `extract_text()` may return
`None`, and `extract_tables()` yields rows of possibly-`None` cells. -/
structure PdfPage where
  pageText : Option String
  pageTables : List (List (List (Option String)))
deriving DecidableEq, Repr

/-- A PDF document: its pages in order. -/
structure PdfDoc where
  pages : List PdfPage
deriving DecidableEq, Repr

/-- Oracles for the external libraries used by `extract_text`; each may fail,
which in Python surfaces as an exception caught by the handler at the end of
`extract_text`. -/
structure ExtractEnv where
  b64decode : String → Except String Bytes
  parseDocx : Bytes → Except String DocxDoc
  parsePdf : Bytes → Except String PdfDoc
  textractProcess : Bytes → Except String Bytes
  utf8Decode : Bytes → Except String String

/-- The source's `MAX_RETRIES = 3`. -/
def MAX_RETRIES : Nat := 3

/-- Python `str.strip()`: drop whitespace from both ends. -/
def pyStrip (s : String) : String :=
  String.mk (((s.data.dropWhile Char.isWhitespace).reverse.dropWhile
    Char.isWhitespace).reverse)

/-- Python `s.startswith(pre)`. -/
def pyStartsWith (s pre : String) : Bool :=
  pre.data.isPrefixOf s.data

/-- Python `str.split(sep)` for a one-character separator: accumulator-based
splitting of a character list (always at least one component). -/
def pySplitAux (sep : Char) : List Char → List Char → List String
  | [], acc => [String.mk acc.reverse]
  | c :: rest, acc =>
    if c = sep then String.mk acc.reverse :: pySplitAux sep rest []
    else pySplitAux sep rest (c :: acc)

/-- Python `filename.lower()` (ASCII case folding). -/
def pyLower (s : String) : String :=
  String.mk (s.data.map Char.toLower)

/-- The source's `filename.lower().split('.')[-1]`. -/
def lowerSplitLastExt (filename : String) : String :=
  (pySplitAux '.' (filename.data.map Char.toLower) []).getLastD ""

/-- Whether the extension is one the dispatch in `extract_text` handles. -/
def isSupportedExt (e : String) : Bool :=
  e == "docx" || e == "pdf" || e == "txt" || e == "doc"

/-- Python `s.startswith(('*', '-', '•'))`. -/
def bulletStart (s : String) : Bool :=
  pyStartsWith s "*" || pyStartsWith s "-" || pyStartsWith s "•"

/-- The DOCX branch of `extract_text`: paragraph texts, then table rows,
then a second paragraph pass for list/bullet items, accumulated exactly as
the Python `full_text.append` loop does. -/
def docxCollect (doc : DocxDoc) : List String :=
  let ft1 := doc.paragraphs.foldl
    (fun acc para =>
      if pyStrip para.text ≠ "" then acc ++ [pyStrip para.text] else acc) []
  let ft2 := doc.tables.foldl
    (fun acc table => table.foldl
      (fun acc row =>
        let rowText := row.filterMap
          (fun cell => if pyStrip cell ≠ "" then some (pyStrip cell) else none)
        if rowText ≠ [] then acc ++ [String.intercalate " | " rowText] else acc)
      acc) ft1
  doc.paragraphs.foldl
    (fun acc para =>
      if pyStartsWith para.styleName "List" || bulletStart (pyStrip para.text) then
        acc ++ [pyStrip para.text]
      else acc) ft2

/-- The PDF branch of `extract_text`: per page, the non-blank trimmed lines
of the page text, then each detected table row joined with " | ". -/
def pdfCollect (doc : PdfDoc) : List String :=
  doc.pages.foldl
    (fun acc page =>
      let acc1 := match page.pageText with
        | some t =>
          if t ≠ "" then
            (pySplitAux '\n' t.data []).foldl
              (fun a line => if pyStrip line ≠ "" then a ++ [pyStrip line] else a) acc
          else acc
        | none => acc
      page.pageTables.foldl
        (fun a table => table.foldl
          (fun a row =>
            let rowText := row.filterMap
              (fun cell => match cell with
                | none => none
                | some c => if pyStrip c ≠ "" then some (pyStrip c) else none)
            if rowText ≠ [] then a ++ [String.intercalate " | " rowText] else a)
          a) acc1) []

/-- The extension dispatch inside `extract_text`, producing the `full_text`
list; an unsupported extension raises `ValueError` as in the source. -/
def extract_chunks (env : ExtractEnv) (binary : Bytes) (ext : String) :
    Except String (List String) :=
  if ext = "docx" then
    match env.parseDocx binary with
    | .error e => .error e
    | .ok doc => .ok (docxCollect doc)
  else if ext = "pdf" then
    match env.parsePdf binary with
    | .error e => .error e
    | .ok doc => .ok (pdfCollect doc)
  else if ext = "txt" then
    match env.utf8Decode binary with
    | .error e => .error e
    | .ok s => .ok [pyStrip s]
  else if ext = "doc" then
    match env.textractProcess binary with
    | .error e => .error e
    | .ok out =>
      match env.utf8Decode out with
      | .error e => .error e
      | .ok s => .ok [pyStrip s]
  else
    .error ("Unsupported file type: " ++ ext)

/-- The body of `extract_text`'s `try` block: decode the base64 payload,
dispatch on the extension, and join `full_text` with newlines. -/
def extract_text_core (env : ExtractEnv) (base64_content : String)
    (filename : String) : Except String String :=
  match env.b64decode base64_content with
  | .error e => .error e
  | .ok binary =>
    match extract_chunks env binary (lowerSplitLastExt filename) with
    | .error e => .error e
    | .ok chunks => .ok (String.intercalate "\n" chunks)

/-- `extract_text`: any exception inside the `try` block is caught and
mapped to the empty string. -/
def extract_text (env : ExtractEnv) (base64_content : String)
    (filename : String) : String :=
  match extract_text_core env base64_content filename with
  | .ok t => t
  | .error _ => ""

/-- Outcome of one `model.generate_content` call (together with reading
`response.text`): a response body, a `GoogleAPIError`, or some other
exception. -/
inductive AttemptOutcome where
  | ok (body : String)
  | apiErr (msg : String)
  | otherErr (msg : String)
deriving DecidableEq, Repr

/-- How the retry loop of `process_cv_view` ended. -/
inductive LoopOutcome where
  | success (v : JValue) (attempt : Nat)
  | parseFailure (attempt : Nat)
  | otherFailure (msg : String) (attempt : Nat)
  | exhausted (lastError : Option String)

/-- Result of running the retry loop: how it ended, the backoff sleeps
performed (in seconds, in order), and how many model calls were made. -/
structure LoopResult where
  outcome : LoopOutcome
  sleeps : List Nat
  calls : Nat

/-- One pass of `for attempt in range(MAX_RETRIES)`: `fuel` is the number of
iterations left, `attempt` the current index. A successful call parses the
body with `json.loads` (the `jsonParse` oracle); a `GoogleAPIError` sleeps
`2 ** attempt` seconds unless this was the final attempt, then continues;
any other exception propagates out of the loop. -/
def retryLoopAux (jsonParse : String → Option JValue)
    (outcomes : Nat → AttemptOutcome) :
    Nat → Nat → Option String → LoopResult
  | 0, _, lastError => ⟨.exhausted lastError, [], 0⟩
  | fuel + 1, attempt, _ =>
    match outcomes attempt with
    | .ok body =>
      match jsonParse body with
      | some v => ⟨.success v attempt, [], 1⟩
      | none => ⟨.parseFailure attempt, [], 1⟩
    | .apiErr msg =>
      let sleeps := if attempt < MAX_RETRIES - 1 then [2 ^ attempt] else []
      let rest := retryLoopAux jsonParse outcomes fuel (attempt + 1) (some msg)
      ⟨rest.outcome, sleeps ++ rest.sleeps, rest.calls + 1⟩
    | .otherErr msg => ⟨.otherFailure msg attempt, [], 1⟩

/-- The retry loop of `process_cv_view`, started at attempt 0 with
`last_error = None`. -/
def retryLoop (jsonParse : String → Option JValue)
    (outcomes : Nat → AttemptOutcome) : LoopResult :=
  retryLoopAux jsonParse outcomes MAX_RETRIES 0 none

/-- Body of an HTTP response: a JSON body, or a binary attachment with a
`Content-Disposition` header. -/
inductive RespBody where
  | json (v : JValue)
  | fileAttachment (content : String) (disposition : String)

/-- An HTTP response: status code and body. -/
structure HttpResponse where
  status : Nat
  body : RespBody

/-- The parsed request body for `process_cv_view`: either `json.loads`
raised `JSONDecodeError`, or the two fields obtained via `data.get`
(absent key modelled as `none`). -/
inductive CvRequest where
  | invalidJson
  | parsed (file_content : Option String) (filename : Option String)

/-- What a run of `process_cv_view` did: the response, the backoff sleeps,
and the number of external model calls. -/
structure ProcessResult where
  response : HttpResponse
  sleeps : List Nat
  modelCalls : Nat

/-- The 400 response produced by the `except json.JSONDecodeError` handler
of `process_cv_view`. -/
def invalidBodyResponse : HttpResponse :=
  ⟨400, .json (.obj [("success", .bool false), ("message", .str "Invalid JSON body.")])⟩

/-- `process_cv_view`: validate the request, extract the text, then run the
retry loop; a `JSONDecodeError` escaping the loop is caught by the outer
`except json.JSONDecodeError` handler, any other non-`GoogleAPIError`
exception by the final `except Exception` handler. -/
def process_cv_view (env : ExtractEnv) (jsonParse : String → Option JValue)
    (outcomes : Nat → AttemptOutcome) (req : CvRequest) : ProcessResult :=
  match req with
  | .invalidJson => ⟨invalidBodyResponse, [], 0⟩
  | .parsed fc fn =>
    if fc.getD "" = "" ∨ fn.getD "" = "" then
      ⟨⟨400, .json (.obj [("success", .bool false),
        ("message", .str "File content or filename is missing.")])⟩, [], 0⟩
    else
      let cv_text := extract_text env (fc.getD "") (fn.getD "")
      if cv_text = "" then
        ⟨⟨400, .json (.obj [("success", .bool false),
          ("message", .str "Failed to extract text from file.")])⟩, [], 0⟩
      else
        let r := retryLoop jsonParse outcomes
        match r.outcome with
        | .success v _ =>
          ⟨⟨200, .json (.obj [("success", .bool true), ("cv_data", v)])⟩,
            r.sleeps, r.calls⟩
        | .parseFailure _ => ⟨invalidBodyResponse, r.sleeps, r.calls⟩
        | .otherFailure msg _ =>
          ⟨⟨500, .json (.obj [("success", .bool false),
            ("message", .str ("Server error during processing: " ++ msg))])⟩,
            r.sleeps, r.calls⟩
        | .exhausted lastError =>
          let msg := "Failed to communicate with AI service after " ++
            toString MAX_RETRIES ++ " retries. Last error: " ++
            (match lastError with | some m => m | none => "None")
          ⟨⟨503, .json (.obj [("error", .str msg)])⟩, r.sleeps, r.calls⟩

/-- Python type name of a JSON-decoded value, as it appears in the
`AttributeError` message. -/
def pyTypeName : JValue → String
  | .str _ => "str"
  | .num _ => "int"
  | .bool _ => "bool"
  | .null => "NoneType"
  | .arr _ => "list"
  | .obj _ => "dict"

/-- Calling `.read()` on a JSON-decoded value: none of the types `json.loads`
can produce (dict, list, str, int, float, bool, NoneType) has a `read`
attribute, so this always raises `AttributeError`. -/
def pyRead (v : JValue) : Except String String :=
  .error ("AttributeError: " ++ pyTypeName v ++ " object has no attribute read")

/-- Python `dict.get(key, default)` restricted to objects (used only on the
unreachable success path of `generate_docx_view`). -/
def jGet (v : JValue) (key : String) (dflt : JValue) : JValue :=
  match v with
  | .obj fs => (fs.lookup key).getD dflt
  | _ => dflt

/-- The parsed request body for `generate_docx_view`. -/
inductive DocxRequest where
  | invalidJson
  | parsed (cv_data : Option JValue)

/-- `generate_docx_view`: validate, then treat `cv_data` itself as the file
stream (`docx_file_stream = (cv_data)`) and call `.read()` on it; the
resulting `AttributeError` is caught by the `except Exception` handler. -/
def generate_docx_view (req : DocxRequest) : HttpResponse :=
  match req with
  | .invalidJson => invalidBodyResponse
  | .parsed cvData =>
    match cvData with
    | none =>
      ⟨400, .json (.obj [("success", .bool false), ("message", .str "CV data is missing.")])⟩
    | some v =>
      if !pyTruthy v then
        ⟨400, .json (.obj [("success", .bool false), ("message", .str "CV data is missing.")])⟩
      else
        match pyRead v with
        | .ok content =>
          let name := match jGet v "name" (.str "Document") with
            | .str s => s.replace " " "_"
            | _ => "Document"
          ⟨200, .fileAttachment content
            ("attachment; filename=Formatted_WB_CV_" ++ name ++ ".docx")⟩
        | .error e =>
          ⟨500, .json (.obj [("success", .bool false),
            ("message", .str ("Server error during DOCX generation: " ++ e))])⟩

/-- The 16 top-level `required` fields of `WB_CV_SCHEMA`. -/
def wbRequiredTopLevel : List String :=
  ["name", "expert_contact_information", "proposed_position", "employer",
   "date_of_birth", "nationality", "education",
   "membership_in_professional_associations", "publications", "other_training",
   "countries_experience", "languages", "employment_record", "detailed_tasks",
   "work_undertaken", "worked_for_world_bank"]

/-- The `required` sub-fields of `expert_contact_information`. -/
def wbRequiredContact : List String := ["phone", "email"]

/-- The `required` sub-fields of each `education` entry. -/
def wbRequiredEducation : List String := ["school_university", "degree", "date_obtained"]

/-- The `required` sub-fields of each `languages` entry. -/
def wbRequiredLanguage : List String := ["language", "speaking", "reading", "writing"]

/-- The `required` sub-fields of each `employment_record` entry. -/
def wbRequiredEmployment : List String :=
  ["from", "to", "employer", "position", "for_references", "name",
   "designation", "telephone", "email", "location", "summary_of_activities"]

/-- The `required` sub-fields of each `work_undertaken` entry. -/
def wbRequiredWork : List String :=
  ["name", "year", "location", "client", "main_features", "position_held", "activities"]

/-- Whether a JSON object has the given key. -/
def hasKey (v : JValue) (key : String) : Bool :=
  match v with
  | .obj fs => fs.any (fun p => p.1 == key)
  | _ => false

/-- Whether a JSON object has all the given keys. -/
def hasKeys (v : JValue) (keys : List String) : Bool :=
  keys.all (hasKey v)

/-- Whether, if the value at `key` is an array, every element has all of
`keys` (the schema's per-item `required` constraint). -/
def arrayEntriesHaveKeys (v : JValue) (key : String) (keys : List String) : Bool :=
  match jGet v key .null with
  | .arr xs => xs.all (fun e => hasKeys e keys)
  | _ => true

/-- Whether a value satisfies every `required` constraint of `WB_CV_SCHEMA`:
all 16 top-level fields present, the contact sub-fields present, and each
entry of the object-array fields carrying its required sub-fields. -/
def conformsToRequired (v : JValue) : Bool :=
  hasKeys v wbRequiredTopLevel &&
  hasKeys (jGet v "expert_contact_information" .null) wbRequiredContact &&
  arrayEntriesHaveKeys v "education" wbRequiredEducation &&
  arrayEntriesHaveKeys v "languages" wbRequiredLanguage &&
  arrayEntriesHaveKeys v "employment_record" wbRequiredEmployment &&
  arrayEntriesHaveKeys v "work_undertaken" wbRequiredWork

/-- An environment whose TXT path succeeds with a fixed CV text; the other
parsers fail (exercises the handler on concrete inputs). -/
def txtEnv : ExtractEnv where
  b64decode := fun _ => .ok [78]
  parseDocx := fun _ => .error "bad docx"
  parsePdf := fun _ => .error "bad pdf"
  textractProcess := fun _ => .error "textract failed"
  utf8Decode := fun _ => .ok "Name: Jane Doe\nEmail: jane@x.com"

/-- An environment where base64 decoding itself fails. -/
def failEnv : ExtractEnv where
  b64decode := fun _ => .error "Invalid base64-encoded string"
  parseDocx := fun _ => .error "bad docx"
  parsePdf := fun _ => .error "bad pdf"
  textractProcess := fun _ => .error "textract failed"
  utf8Decode := fun _ => .error "undecodable bytes"

/-- A small DOCX document: a normal paragraph, a bullet paragraph, a blank
paragraph, and one table with a partially blank row. -/
def sampleDocx : DocxDoc where
  paragraphs := [⟨"Name: Jane", "Normal"⟩, ⟨"- Lean", "List Bullet"⟩, ⟨"   ", "Normal"⟩]
  tables := [[["University", " MSc ", ""], ["  ", ""]]]

/-- An environment whose DOCX parser returns `sampleDocx`. -/
def docxEnv : ExtractEnv where
  b64decode := fun _ => .ok [80]
  parseDocx := fun _ => .ok sampleDocx
  parsePdf := fun _ => .error "bad pdf"
  textractProcess := fun _ => .error "textract failed"
  utf8Decode := fun _ => .error "undecodable bytes"

/-- A `json.loads` oracle that parses only the body "resp" (to an empty
JSON object) and fails on everything else. -/
def jpResp : String → Option JValue :=
  fun s => if s = "resp" then some (.obj []) else none

/-- A `json.loads` oracle that fails on every body. -/
def jpNone : String → Option JValue := fun _ => none

/-- Model outcomes: retryable errors on attempts 0 and 1, success on 2. -/
def ocFailTwice : Nat → AttemptOutcome :=
  fun n => if n = 0 then .apiErr "e0" else if n = 1 then .apiErr "e1" else .ok "resp"

/-- Model outcomes: a retryable `GoogleAPIError` on every attempt. -/
def ocAllErr : Nat → AttemptOutcome := fun _ => .apiErr "boom"

/-- Model outcomes: every attempt returns a body that is not valid JSON. -/
def ocOkBad : Nat → AttemptOutcome := fun _ => .ok "not json"

/-- Model outcomes: every attempt succeeds with body "resp". -/
def ocOkResp : Nat → AttemptOutcome := fun _ => .ok "resp"

lemma retryLoop_eq_match (jp : String → Option JValue) (oc : Nat → AttemptOutcome) :
    retryLoop jp oc =
      match oc 0 with
      | .ok b0 =>
        (match jp b0 with
         | some v => ⟨.success v 0, [], 1⟩
         | none => ⟨.parseFailure 0, [], 1⟩)
      | .otherErr m => ⟨.otherFailure m 0, [], 1⟩
      | .apiErr _ =>
        match oc 1 with
        | .ok b1 =>
          (match jp b1 with
           | some v => ⟨.success v 1, [1], 2⟩
           | none => ⟨.parseFailure 1, [1], 2⟩)
        | .otherErr m => ⟨.otherFailure m 1, [1], 2⟩
        | .apiErr _ =>
          match oc 2 with
          | .ok b2 =>
            (match jp b2 with
             | some v => ⟨.success v 2, [1, 2], 3⟩
             | none => ⟨.parseFailure 2, [1, 2], 3⟩)
          | .otherErr m => ⟨.otherFailure m 2, [1, 2], 3⟩
          | .apiErr m2 => ⟨.exhausted (some m2), [1, 2], 3⟩ := by
  rcases h0 : oc 0 with b0 | m0 | m0
  · rcases hp : jp b0 with _ | v <;> simp [retryLoop, retryLoopAux, h0, hp, MAX_RETRIES]
  · rcases h1 : oc 1 with b1 | m1 | m1
    · rcases hp : jp b1 with _ | v <;>
        simp [retryLoop, retryLoopAux, h0, h1, hp, MAX_RETRIES]
    · rcases h2 : oc 2 with b2 | m2 | m2
      · rcases hp : jp b2 with _ | v <;>
          simp [retryLoop, retryLoopAux, h0, h1, h2, hp, MAX_RETRIES]
      · simp [retryLoop, retryLoopAux, h0, h1, h2, MAX_RETRIES]
      · simp [retryLoop, retryLoopAux, h0, h1, h2, MAX_RETRIES]
    · simp [retryLoop, retryLoopAux, h0, h1, MAX_RETRIES]
  · simp [retryLoop, retryLoopAux, h0, MAX_RETRIES]

lemma retryLoop_success_inv (jp : String → Option JValue) (oc : Nat → AttemptOutcome)
    (v : JValue) (a : Nat) (h : (retryLoop jp oc).outcome = LoopOutcome.success v a) :
    a < MAX_RETRIES ∧ ∃ body, oc a = AttemptOutcome.ok body ∧ jp body = some v := by
  rw [retryLoop_eq_match] at h
  rcases h0 : oc 0 with b0 | m0 | m0
  · rcases hp : jp b0 with _ | v0 <;> simp [h0, hp] at h
    obtain ⟨rfl, rfl⟩ := h
    exact ⟨by decide, b0, h0, hp⟩
  · rcases h1 : oc 1 with b1 | m1 | m1
    · rcases hp : jp b1 with _ | v1 <;> simp [h0, h1, hp] at h
      obtain ⟨rfl, rfl⟩ := h
      exact ⟨by decide, b1, h1, hp⟩
    · rcases h2 : oc 2 with b2 | m2 | m2
      · rcases hp : jp b2 with _ | v2 <;> simp [h0, h1, h2, hp] at h
        obtain ⟨rfl, rfl⟩ := h
        exact ⟨by decide, b2, h2, hp⟩
      · simp [h0, h1, h2] at h
      · simp [h0, h1, h2] at h
    · simp [h0, h1] at h
  · simp [h0] at h

lemma toLower_eq_dot {c : Char} (h : Char.toLower c = '.') : c = '.' := by
  unfold Char.toLower at h
  simp only [] at h
  by_cases hc : (Char.toNat c >= 65 ∧ Char.toNat c <= 90)
  case pos =>
    rw [if_pos hc] at h
    exfalso
    obtain ⟨h1, h2⟩ := hc
    generalize hm : Char.toNat c + 32 = m at h
    have hm1 : 97 ≤ m := by omega
    have hm2 : m ≤ 122 := by omega
    interval_cases m <;> exact absurd h (by decide)
  case neg =>
    rw [if_neg hc] at h
    exact h

lemma map_toLower_not_mem_dot {cs : List Char} (h : '.' ∉ cs) :
    '.' ∉ cs.map Char.toLower := by
  intro hmem
  obtain ⟨c, hc, heq⟩ := List.mem_map.mp hmem
  exact h (toLower_eq_dot heq ▸ hc)

lemma pySplitAux_no_sep (sep : Char) (cs : List Char) (acc : List Char)
    (h : sep ∉ cs) : pySplitAux sep cs acc = [String.mk (acc.reverse ++ cs)] := by
  induction cs generalizing acc with
  | nil => simp [pySplitAux]
  | cons c rest ih =>
    have hne : c ≠ sep := fun hc => h (hc ▸ List.mem_cons_self c rest)
    have hrest : sep ∉ rest := fun hr => h (List.mem_cons_of_mem c hr)
    rw [pySplitAux, if_neg (fun hc => hne hc), ih _ hrest]
    simp

lemma extract_text_unsupported (env : ExtractEnv) (content filename : String)
    (h : isSupportedExt (lowerSplitLastExt filename) = false) :
    extract_text env content filename = "" := by
  simp only [isSupportedExt, Bool.or_eq_false_iff, beq_eq_false_iff_ne, ne_eq] at h
  obtain ⟨⟨⟨hdocx, hpdf⟩, htxt⟩, hdoc⟩ := h
  rcases hb : env.b64decode content with e | bs
  · simp [extract_text, extract_text_core, hb]
  · simp [extract_text, extract_text_core, extract_chunks, hb, hdocx, hpdf, htxt, hdoc]

lemma foldl_ite_append {α β : Type} (P : α → Prop) [DecidablePred P] (t : α → β)
    (l : List α) (init : List β) :
    l.foldl (fun acc x => if P x then acc ++ [t x] else acc) init
      = init ++ l.filterMap (fun x => if P x then some (t x) else none) := by
  induction l generalizing init with
  | nil => simp
  | cons a l ih =>
    rw [List.foldl_cons, List.filterMap_cons]
    by_cases h : P a
    · rw [if_pos h, if_pos h, ih]
      simp [List.append_assoc]
    · rw [if_neg h, if_neg h, ih]

lemma foldl_tables_append {α β : Type} (P : α → Prop) [DecidablePred P] (t : α → β)
    (ts : List (List α)) (init : List β) :
    ts.foldl
      (fun acc table => table.foldl
        (fun acc x => if P x then acc ++ [t x] else acc) acc) init
      = init ++ ts.flatMap
          (fun table => table.filterMap (fun x => if P x then some (t x) else none)) := by
  induction ts generalizing init with
  | nil => simp
  | cons t0 ts ih =>
    rw [List.foldl_cons, foldl_ite_append P t, ih, List.flatMap_cons]
    simp [List.append_assoc]

lemma docxCollect_eq (doc : DocxDoc) :
    docxCollect doc =
      doc.paragraphs.filterMap
        (fun para =>
          if pyStrip para.text ≠ "" then some (pyStrip para.text) else none) ++
      doc.tables.flatMap
        (fun table => table.filterMap
          (fun row =>
            if row.filterMap
                (fun cell => if pyStrip cell ≠ "" then some (pyStrip cell) else none) ≠ [] then
              some (String.intercalate " | " (row.filterMap
                (fun cell => if pyStrip cell ≠ "" then some (pyStrip cell) else none)))
            else none)) ++
      doc.paragraphs.filterMap
        (fun para =>
          if pyStartsWith para.styleName "List" || bulletStart (pyStrip para.text) then
            some (pyStrip para.text)
          else none) := by
  simp only [docxCollect]
  rw [foldl_ite_append
        (fun (para : DocxPara) =>
          (pyStartsWith para.styleName "List" || bulletStart (pyStrip para.text)) = true)
        (fun (para : DocxPara) => pyStrip para.text),
      foldl_tables_append
        (fun (row : List String) => row.filterMap
          (fun cell => if pyStrip cell ≠ "" then some (pyStrip cell) else none) ≠ [])
        (fun (row : List String) => String.intercalate " | " (row.filterMap
          (fun cell => if pyStrip cell ≠ "" then some (pyStrip cell) else none))),
      foldl_ite_append
        (fun (para : DocxPara) => pyStrip para.text ≠ "")
        (fun (para : DocxPara) => pyStrip para.text)]
  simp [List.append_assoc]

lemma retryLoop_shape (jp : String → Option JValue) (oc : Nat → AttemptOutcome) :
    (retryLoop jp oc).calls ≤ MAX_RETRIES ∧
    (retryLoop jp oc).sleeps =
      (List.range ((retryLoop jp oc).calls - 1)).map (fun k => 2 ^ k) ∧
    (∀ k, k + 1 < (retryLoop jp oc).calls → ∃ m, oc k = AttemptOutcome.apiErr m) := by
  rw [retryLoop_eq_match]
  rcases h0 : oc 0 with b0 | m0 | m0
  · rcases hp : jp b0 with _ | v <;> simp [h0, hp, MAX_RETRIES]
  · rcases h1 : oc 1 with b1 | m1 | m1
    · rcases hp : jp b1 with _ | v <;>
        (simp [h0, h1, hp, MAX_RETRIES]
         refine ⟨by decide, ?_⟩
         intro k hk
         have hk0 : k = 0 := by omega
         subst hk0
         exact ⟨m0, h0⟩)
    · rcases h2 : oc 2 with b2 | m2 | m2
      · rcases hp : jp b2 with _ | v <;>
          (simp [h0, h1, h2, hp, MAX_RETRIES]
           refine ⟨by decide, ?_⟩
           intro k hk
           have hk01 : k = 0 ∨ k = 1 := by omega
           rcases hk01 with rfl | rfl
           · exact ⟨m0, h0⟩
           · exact ⟨m1, h1⟩)
      · simp [h0, h1, h2, MAX_RETRIES]
        refine ⟨by decide, ?_⟩
        intro k hk
        have hk01 : k = 0 ∨ k = 1 := by omega
        rcases hk01 with rfl | rfl
        · exact ⟨m0, h0⟩
        · exact ⟨m1, h1⟩
      · simp [h0, h1, h2, MAX_RETRIES]
        refine ⟨by decide, ?_⟩
        intro k hk
        have hk01 : k = 0 ∨ k = 1 := by omega
        rcases hk01 with rfl | rfl
        · exact ⟨m0, h0⟩
        · exact ⟨m1, h1⟩
    · simp [h0, h1, MAX_RETRIES]
      refine ⟨by decide, ?_⟩
      intro k hk
      have hk0 : k = 0 := by omega
      subst hk0
      exact ⟨m0, h0⟩
  · simp [h0, MAX_RETRIES]

/-- Claim C1: the model-call loop in process_cv_view makes at most 3 attempts
total; a further attempt happens only after a GoogleAPIError; the sleep after
failed attempt k is 2 ^ k seconds (1s then 2s) with no sleep after the final
attempt; and when the first two attempts fail with retryable errors and the
third succeeds, the request returns the success response on the third attempt. -/
theorem c1_retry_policy (env : ExtractEnv) (jp : String → Option JValue)
    (oc : Nat → AttemptOutcome) :
    (retryLoop jp oc).calls ≤ MAX_RETRIES ∧
    (retryLoop jp oc).sleeps =
      (List.range ((retryLoop jp oc).calls - 1)).map (fun k => 2 ^ k) ∧
    (∀ k, k + 1 < (retryLoop jp oc).calls → ∃ m, oc k = AttemptOutcome.apiErr m) ∧
    (∀ m0 m1 body v fc fn,
      oc 0 = AttemptOutcome.apiErr m0 → oc 1 = AttemptOutcome.apiErr m1 →
      oc 2 = AttemptOutcome.ok body → jp body = some v →
      fc ≠ "" → fn ≠ "" → extract_text env fc fn ≠ "" →
      retryLoop jp oc = ⟨LoopOutcome.success v 2, [1, 2], 3⟩ ∧
      process_cv_view env jp oc (CvRequest.parsed (some fc) (some fn)) =
        ⟨⟨200, RespBody.json (JValue.obj
          [("success", JValue.bool true), ("cv_data", v)])⟩, [1, 2], 3⟩) := by
  obtain ⟨hle, hsl, hra⟩ := retryLoop_shape jp oc
  refine ⟨hle, hsl, hra, ?_⟩
  intro m0 m1 body v fc fn h0 h1 h2 hp hfc hfn hex
  have hr : retryLoop jp oc = ⟨LoopOutcome.success v 2, [1, 2], 3⟩ := by
    rw [retryLoop_eq_match]
    simp [h0, h1, h2, hp]
  refine ⟨hr, ?_⟩
  simp [process_cv_view, hfc, hfn, hex, hr]

/-- Witness for C1: a concrete run that fails twice retryably and succeeds on
the third attempt, sleeping 1s then 2s. -/
theorem c1_retry_policy_witness :
    (retryLoop jpResp ocFailTwice).calls ≤ MAX_RETRIES ∧
    retryLoop jpResp ocFailTwice = ⟨LoopOutcome.success (JValue.obj []) 2, [1, 2], 3⟩ ∧
    process_cv_view txtEnv jpResp ocFailTwice
        (CvRequest.parsed (some "QQ==") (some "cv.txt")) =
      ⟨⟨200, RespBody.json (JValue.obj
        [("success", JValue.bool true), ("cv_data", JValue.obj [])])⟩, [1, 2], 3⟩ := by
  obtain ⟨hle, hsl, hra, hscen⟩ := c1_retry_policy txtEnv jpResp ocFailTwice
  obtain ⟨hr, hproc⟩ := hscen "e0" "e1" "resp" (JValue.obj []) "QQ==" "cv.txt"
    rfl rfl rfl rfl (by decide) (by decide) (by decide)
  exact ⟨hle, hr, hproc⟩

/-- Counterexample to C2: when the model body fails JSON parsing, the handler
answers with status 400 (the request-body JSONDecodeError handler catches it),
not 500, after exactly one model call and no sleeps. -/
theorem c2_counterexample :
    (process_cv_view txtEnv jpNone ocOkBad
        (CvRequest.parsed (some "QQ==") (some "cv.txt"))).response.status ≠ 500 ∧
    process_cv_view txtEnv jpNone ocOkBad
        (CvRequest.parsed (some "QQ==") (some "cv.txt")) =
      ⟨invalidBodyResponse, [], 1⟩ := by
  exact ⟨by decide, rfl⟩

/-- Claim C2 (amended): if attempt k returns a body that fails JSON parsing
(all earlier attempts having failed retryably), the request fails immediately
with no further model calls and no further sleeps, but with HTTP status 400 and
body success=false / message Invalid JSON body. rather than 500: the
JSONDecodeError escaping the loop is caught by the request-body handler. -/
theorem c2_parse_failure_is_400 (env : ExtractEnv) (jp : String → Option JValue)
    (oc : Nat → AttemptOutcome) (fc fn body : String) (k : Nat)
    (hfc : fc ≠ "") (hfn : fn ≠ "") (hex : extract_text env fc fn ≠ "")
    (hk : k < MAX_RETRIES)
    (hprev : ∀ j, j < k → ∃ m, oc j = AttemptOutcome.apiErr m)
    (hbody : oc k = AttemptOutcome.ok body) (hjp : jp body = none) :
    process_cv_view env jp oc (CvRequest.parsed (some fc) (some fn)) =
      ⟨invalidBodyResponse, (List.range k).map (fun i => 2 ^ i), k + 1⟩ := by
  have hk3 : k = 0 ∨ k = 1 ∨ k = 2 := by
    simp [MAX_RETRIES] at hk
    omega
  have hr : retryLoop jp oc =
      ⟨LoopOutcome.parseFailure k, (List.range k).map (fun i => 2 ^ i), k + 1⟩ := by
    rcases hk3 with rfl | rfl | rfl
    · rw [retryLoop_eq_match]
      simp [hbody, hjp]
    · obtain ⟨m0, h0⟩ := hprev 0 (by omega)
      rw [retryLoop_eq_match]
      simp [h0, hbody, hjp]
      all_goals decide
    · obtain ⟨m0, h0⟩ := hprev 0 (by omega)
      obtain ⟨m1, h1⟩ := hprev 1 (by omega)
      rw [retryLoop_eq_match]
      simp [h0, h1, hbody, hjp]
      all_goals decide
  simp [process_cv_view, hfc, hfn, hex, hr]

/-- Witness for the amended C2 at a concrete run failing parse on attempt 0. -/
theorem c2_parse_failure_is_400_witness :
    process_cv_view txtEnv jpNone ocOkBad
        (CvRequest.parsed (some "QQ==") (some "cv.txt")) =
      ⟨invalidBodyResponse, [], 1⟩ :=
  c2_parse_failure_is_400 txtEnv jpNone ocOkBad "QQ==" "cv.txt" "not json" 0
    (by decide) (by decide) (by decide) (by decide)
    (fun j hj => absurd hj (by omega)) rfl rfl

/-- Claim C3: when all three attempts fail with retryable GoogleAPIErrors, the
handler returns HTTP 503 whose JSON body is an error field holding a message
that carries the last underlying provider error. -/
theorem c3_retry_exhaustion_503 (env : ExtractEnv) (jp : String → Option JValue)
    (oc : Nat → AttemptOutcome) (fc fn m0 m1 m2 : String)
    (hfc : fc ≠ "") (hfn : fn ≠ "") (hex : extract_text env fc fn ≠ "")
    (h0 : oc 0 = AttemptOutcome.apiErr m0) (h1 : oc 1 = AttemptOutcome.apiErr m1)
    (h2 : oc 2 = AttemptOutcome.apiErr m2) :
    process_cv_view env jp oc (CvRequest.parsed (some fc) (some fn)) =
      ⟨⟨503, RespBody.json (JValue.obj [("error", JValue.str
        ("Failed to communicate with AI service after " ++ toString MAX_RETRIES ++
          " retries. Last error: " ++ m2))])⟩, [1, 2], 3⟩ := by
  have hr : retryLoop jp oc = ⟨LoopOutcome.exhausted (some m2), [1, 2], 3⟩ := by
    rw [retryLoop_eq_match]
    simp [h0, h1, h2]
  simp [process_cv_view, hfc, hfn, hex, hr]

/-- Witness for C3: a concrete run whose three attempts all fail retryably. -/
theorem c3_retry_exhaustion_503_witness :
    process_cv_view txtEnv jpNone ocAllErr
        (CvRequest.parsed (some "QQ==") (some "cv.txt")) =
      ⟨⟨503, RespBody.json (JValue.obj [("error", JValue.str
        ("Failed to communicate with AI service after " ++ toString MAX_RETRIES ++
          " retries. Last error: " ++ "boom"))])⟩, [1, 2], 3⟩ :=
  c3_retry_exhaustion_503 txtEnv jpNone ocAllErr "QQ==" "cv.txt" "boom" "boom" "boom"
    (by decide) (by decide) (by decide) rfl rfl rfl

/-- Claim C4: extract_text is total at its boundary — it either returns the
text computed by its try-block body or, on any internal failure (base64 decode
failure, parser failure, unsupported extension), the empty string. -/
theorem c4_extract_text_total (env : ExtractEnv) (content filename : String) :
    (extract_text env content filename = "" ∨
      ∃ t, extract_text_core env content filename = Except.ok t ∧
        extract_text env content filename = t) ∧
    (∀ e, extract_text_core env content filename = Except.error e →
      extract_text env content filename = "") ∧
    (∀ e, env.b64decode content = Except.error e →
      extract_text env content filename = "") ∧
    (isSupportedExt (lowerSplitLastExt filename) = false →
      extract_text env content filename = "") := by
  refine ⟨?_, ?_, ?_, fun hns => extract_text_unsupported env content filename hns⟩
  · rcases hc : extract_text_core env content filename with e | t
    · exact Or.inl (by simp [extract_text, hc])
    · exact Or.inr ⟨t, rfl, by simp [extract_text, hc]⟩
  · intro e he
    simp [extract_text, he]
  · intro e he
    simp [extract_text, extract_text_core, he]

/-- Witness for C4: undecodable base64 and an extension-less filename both
yield the empty-string result. -/
theorem c4_extract_text_total_witness :
    extract_text failEnv "%%%" "cv.pdf" = "" ∧
    extract_text failEnv "zz" "nodotname" = "" :=
  ⟨(c4_extract_text_total failEnv "%%%" "cv.pdf").2.2.1
      "Invalid base64-encoded string" rfl,
    (c4_extract_text_total failEnv "zz" "nodotname").2.2.2 (by decide)⟩

/-- Claim C5: when extraction yields empty text for a request with both fields
present (non-empty), the handler answers 400 with success=false and never calls
the external model (zero calls, zero sleeps). -/
theorem c5_extraction_failure_terminal (env : ExtractEnv)
    (jp : String → Option JValue) (oc : Nat → AttemptOutcome) (fc fn : String)
    (hfc : fc ≠ "") (hfn : fn ≠ "") (hex : extract_text env fc fn = "") :
    process_cv_view env jp oc (CvRequest.parsed (some fc) (some fn)) =
      ⟨⟨400, RespBody.json (JValue.obj [("success", JValue.bool false),
        ("message", JValue.str "Failed to extract text from file.")])⟩, [], 0⟩ := by
  simp [process_cv_view, hfc, hfn, hex]

/-- Witness for C5: a concrete request whose base64 payload cannot be decoded. -/
theorem c5_extraction_failure_terminal_witness :
    process_cv_view failEnv jpResp ocOkResp
        (CvRequest.parsed (some "AAAA") (some "cv.pdf")) =
      ⟨⟨400, RespBody.json (JValue.obj [("success", JValue.bool false),
        ("message", JValue.str "Failed to extract text from file.")])⟩, [], 0⟩ :=
  c5_extraction_failure_terminal failEnv jpResp ocOkResp "AAAA" "cv.pdf"
    (by decide) (by decide) rfl

/-- Counterexample to C6: the model may return the valid JSON body parsed as
the empty object; the handler returns it as successful cv_data even though all
16 required top-level schema fields are missing. -/
theorem c6_counterexample :
    process_cv_view txtEnv jpResp ocOkResp
        (CvRequest.parsed (some "QQ==") (some "cv.txt")) =
      ⟨⟨200, RespBody.json (JValue.obj
        [("success", JValue.bool true), ("cv_data", JValue.obj [])])⟩, [], 1⟩ ∧
    hasKeys (JValue.obj []) wbRequiredTopLevel = false ∧
    conformsToRequired (JValue.obj []) = false :=
  ⟨rfl, rfl, rfl⟩

/-- Claim C6 (amended): a successful response carries as cv_data exactly the
JSON-parsed body of the successful model attempt, with no schema validation by
the handler; the required fields are therefore present exactly when the model
response contains them. -/
theorem c6_cv_data_verbatim (env : ExtractEnv) (jp : String → Option JValue)
    (oc : Nat → AttemptOutcome) (req : CvRequest) (v : JValue)
    (ss : List Nat) (cs : Nat)
    (h : process_cv_view env jp oc req =
      ⟨⟨200, RespBody.json (JValue.obj
        [("success", JValue.bool true), ("cv_data", v)])⟩, ss, cs⟩) :
    ∃ a body, a < MAX_RETRIES ∧ oc a = AttemptOutcome.ok body ∧ jp body = some v := by
  rcases req with _ | ⟨fc, fn⟩
  · exfalso
    simp [process_cv_view, invalidBodyResponse] at h
  · by_cases hcond : fc.getD "" = "" ∨ fn.getD "" = ""
    · exfalso
      simp [process_cv_view, hcond] at h
    · by_cases hex : extract_text env (fc.getD "") (fn.getD "") = ""
      · exfalso
        simp [process_cv_view, hcond, hex] at h
      · rcases ho : (retryLoop jp oc).outcome with ⟨v', a⟩ | a | ⟨m, a⟩ | le
        · obtain ⟨ha, body, hb, hjp⟩ := retryLoop_success_inv jp oc v' a ho
          have hpr : process_cv_view env jp oc (CvRequest.parsed fc fn) =
              ⟨⟨200, RespBody.json (JValue.obj
                [("success", JValue.bool true), ("cv_data", v')])⟩,
                (retryLoop jp oc).sleeps, (retryLoop jp oc).calls⟩ := by
            simp [process_cv_view, hcond, hex, ho]
          rw [hpr] at h
          simp at h
          obtain ⟨hv, -, -⟩ := h
          subst hv
          exact ⟨a, body, ha, hb, hjp⟩
        · exfalso
          simp [process_cv_view, hcond, hex, ho, invalidBodyResponse] at h
        · exfalso
          simp [process_cv_view, hcond, hex, ho] at h
        · exfalso
          simp [process_cv_view, hcond, hex, ho] at h

/-- Witness for the amended C6 at a concrete successful run. -/
theorem c6_cv_data_verbatim_witness :
    ∃ a body, a < MAX_RETRIES ∧ ocOkResp a = AttemptOutcome.ok body ∧
      jpResp body = some (JValue.obj []) :=
  c6_cv_data_verbatim txtEnv jpResp ocOkResp
    (CvRequest.parsed (some "QQ==") (some "cv.txt")) (JValue.obj []) [] 1 rfl

/-- Claim C7: for a DOCX file the extracted text is the newline-join of, in
order, the non-blank trimmed paragraph texts, then per table row the non-blank
trimmed cell texts joined by a pipe separator, then a second paragraph pass
appending every list-styled or bullet-prefixed paragraph (so bullet lines
appear twice). -/
theorem c7_docx_text_order (env : ExtractEnv) (content filename : String)
    (bs : Bytes) (doc : DocxDoc)
    (hext : lowerSplitLastExt filename = "docx")
    (hb : env.b64decode content = Except.ok bs)
    (hd : env.parseDocx bs = Except.ok doc) :
    extract_text env content filename = String.intercalate "\n"
      (doc.paragraphs.filterMap
        (fun para =>
          if pyStrip para.text ≠ "" then some (pyStrip para.text) else none) ++
       doc.tables.flatMap
        (fun table => table.filterMap
          (fun row =>
            if row.filterMap
                (fun cell => if pyStrip cell ≠ "" then some (pyStrip cell) else none) ≠ [] then
              some (String.intercalate " | " (row.filterMap
                (fun cell => if pyStrip cell ≠ "" then some (pyStrip cell) else none)))
            else none)) ++
       doc.paragraphs.filterMap
        (fun para =>
          if pyStartsWith para.styleName "List" || bulletStart (pyStrip para.text) then
            some (pyStrip para.text)
          else none)) := by
  have h1 : extract_text env content filename =
      String.intercalate "\n" (docxCollect doc) := by
    simp [extract_text, extract_text_core, extract_chunks, hext, hb, hd]
  rw [h1, docxCollect_eq]

/-- Witness for C7: a concrete document whose bullet line appears twice, with
the table row joined by the pipe separator. -/
theorem c7_docx_text_order_witness :
    extract_text docxEnv "UEs=" "cv.docx" =
      "Name: Jane\n- Lean\nUniversity | MSc\n- Lean" := by
  rw [c7_docx_text_order docxEnv "UEs=" "cv.docx" [80] sampleDocx rfl rfl rfl]
  decide

/-- Claim C8: for every valid generate-docx request with a non-empty cv_data
mapping, the handler never returns a document download: treating the mapping as
a file stream raises AttributeError, caught as a 500 JSON response with
success=false. -/
theorem c8_generate_docx_defective (fields : List (String × JValue))
    (h : fields ≠ []) :
    generate_docx_view (DocxRequest.parsed (some (JValue.obj fields))) =
      ⟨500, RespBody.json (JValue.obj [("success", JValue.bool false),
        ("message", JValue.str
          "Server error during DOCX generation: AttributeError: dict object has no attribute read")])⟩ ∧
    ∀ content disposition,
      (generate_docx_view (DocxRequest.parsed (some (JValue.obj fields)))).body ≠
        RespBody.fileAttachment content disposition := by
  rcases fields with _ | ⟨f, fs⟩
  · exact absurd rfl h
  · refine ⟨rfl, ?_⟩
    intro content disposition hcontra
    simp [generate_docx_view, pyTruthy, pyRead, pyTypeName] at hcontra

/-- Witness for C8: a concrete one-field profile mapping. -/
theorem c8_generate_docx_defective_witness :
    generate_docx_view (DocxRequest.parsed
        (some (JValue.obj [("name", JValue.str "Jane")]))) =
      ⟨500, RespBody.json (JValue.obj [("success", JValue.bool false),
        ("message", JValue.str
          "Server error during DOCX generation: AttributeError: dict object has no attribute read")])⟩ :=
  (c8_generate_docx_defective [("name", JValue.str "Jane")]
    (List.cons_ne_nil _ _)).1

/-- Claim C9: for a filename whose lowercased last dot-separated component is
txt, the extracted text is the UTF-8 decoding of the file bytes trimmed of
leading and trailing whitespace; in particular the Jane Doe sample text is
returned verbatim. -/
theorem c9_txt_extraction (env : ExtractEnv) (content filename : String)
    (bs : Bytes) (s : String)
    (hext : lowerSplitLastExt filename = "txt")
    (hb : env.b64decode content = Except.ok bs)
    (hu : env.utf8Decode bs = Except.ok s) :
    extract_text env content filename = pyStrip s ∧
    (s = "Name: Jane Doe\nEmail: jane@x.com" →
      extract_text env content filename = "Name: Jane Doe\nEmail: jane@x.com") := by
  have h1 : extract_text env content filename = pyStrip s := by
    simp [extract_text, extract_text_core, extract_chunks, hext, hb, hu,
      String.intercalate]
    rfl
  refine ⟨h1, fun hs => ?_⟩
  rw [h1, hs]
  decide

/-- Witness for C9 at the concrete Jane Doe payload. -/
theorem c9_txt_extraction_witness :
    extract_text txtEnv "TmFtZQ==" "cv.txt" = "Name: Jane Doe\nEmail: jane@x.com" :=
  (c9_txt_extraction txtEnv "TmFtZQ==" "cv.txt" [78]
    "Name: Jane Doe\nEmail: jane@x.com" rfl rfl rfl).2 rfl

/-- Claim C10: a filename without a dot is its own (lowercased) extension, and
when that string is not one of docx, pdf, doc, txt, extraction yields the
empty-text result. -/
theorem c10_no_dot_filename (env : ExtractEnv) (content filename : String)
    (hnd : '.' ∉ filename.data)
    (hns : isSupportedExt (pyLower filename) = false) :
    lowerSplitLastExt filename = pyLower filename ∧
    extract_text env content filename = "" := by
  have hext : lowerSplitLastExt filename = pyLower filename := by
    unfold lowerSplitLastExt pyLower
    rw [pySplitAux_no_sep '.' _ [] (map_toLower_not_mem_dot hnd)]
    simp
  refine ⟨hext, extract_text_unsupported env content filename ?_⟩
  rw [hext]
  exact hns

/-- Witness for C10: the extension-less filename RESUME. -/
theorem c10_no_dot_filename_witness :
    lowerSplitLastExt "RESUME" = pyLower "RESUME" ∧
    extract_text txtEnv "QQ==" "RESUME" = "" :=
  c10_no_dot_filename txtEnv "QQ==" "RESUME" (by decide) (by decide)
